import Mathlib

/-!
Verification development for the eco-stats-dash monitoring backend.

The definitions below are a shallow embedding of the JavaScript backend
(the Express server that samples host metrics, stores them, evaluates
alert thresholds and produces trend predictions).  JavaScript numbers are
modelled as exact rationals; the one place where floating-point special
values matter (0/0 = NaN in the R-squared computation for a constant
series, which makes both bucket comparisons false) is modelled by an
explicit branch, noted where it occurs.
-/

set_option maxRecDepth 100000

namespace EcoStats

/-! ## Trend analyzer (source function calculateTrend) -/

inductive Confidence where
  | low
  | medium
  | high
deriving DecidableEq, Repr

/-- Index sequence 0..n-1 used as the x axis of the regression. -/
def xsOf (n : Nat) : List Rat := (List.range n).map (fun i => (i : Rat))

/-- Sum of x*y over the window, as in the source reduce over xValues. -/
def sumXY (values : List Rat) : Rat :=
  (List.zipWith (fun x v => x * v) (xsOf values.length) values).sum

/-- OLS slope (n*sumXY - sumX*sumY) / (n*sumXX - sumX*sumX), as in the source. -/
def trendSlope (values : List Rat) : Rat :=
  let n : Rat := values.length
  let sx := (xsOf values.length).sum
  let sxx := ((xsOf values.length).map (fun x => x * x)).sum
  (n * sumXY values - sx * values.sum) / (n * sxx - sx * sx)

/-- Mean of the window, sumY / n in the source. -/
def trendAverage (values : List Rat) : Rat := values.sum / (values.length : Rat)

/-- Intercept of the fitted line, yMean - slope*(n-1)/2 in the source. -/
def interceptOf (values : List Rat) : Rat :=
  trendAverage values - trendSlope values * ((values.length : Rat) - 1) / 2

/-- Residual sum of squares against the fitted line. -/
def ssResOf (values : List Rat) : Rat :=
  (List.zipWith (fun x v => (v - (trendSlope values * x + interceptOf values)) ^ 2)
    (xsOf values.length) values).sum

/-- Total sum of squares against the mean. -/
def ssTotOf (values : List Rat) : Rat :=
  (values.map (fun v => (v - trendAverage values) ^ 2)).sum

/-- Coefficient of determination, 1 - ssRes/ssTot in the source. -/
def rSquaredOf (values : List Rat) : Rat := 1 - ssResOf values / ssTotOf values

/-- Confidence bucket of the source: rSquared > 0.7 high, > 0.4 medium, else low.
When ssTot = 0 the source computes 0/0 = NaN and both comparisons are false,
giving low; the first branch models that case explicitly. -/
def confidenceOf (values : List Rat) : Confidence :=
  if ssTotOf values = 0 then .low
  else if rSquaredOf values > 7/10 then .high
  else if rSquaredOf values > 4/10 then .medium
  else .low

structure TrendOut where
  slope : Rat
  average : Rat
  confidence : Confidence
deriving DecidableEq, Repr

/-- Embedding of calculateTrend: fewer than 2 points gives slope 0, average 0,
confidence low; otherwise the OLS fit over indices 0..n-1. -/
def calculateTrend (values : List Rat) : TrendOut :=
  if values.length < 2 then ⟨0, 0, .low⟩
  else ⟨trendSlope values, trendAverage values, confidenceOf values⟩

lemma calculateTrend_of_two_le {values : List Rat} (h : 2 ≤ values.length) :
    calculateTrend values = ⟨trendSlope values, trendAverage values, confidenceOf values⟩ := by
  unfold calculateTrend
  rw [if_neg (by omega)]

lemma confidenceOf_high_iff {values : List Rat} (h : ssTotOf values ≠ 0) :
    confidenceOf values = .high ↔ rSquaredOf values > 7/10 := by
  unfold confidenceOf
  rw [if_neg h]
  split_ifs with h1 h2 <;> simp_all

lemma confidenceOf_medium_iff {values : List Rat} (h : ssTotOf values ≠ 0) :
    confidenceOf values = .medium ↔ (4/10 < rSquaredOf values ∧ rSquaredOf values ≤ 7/10) := by
  unfold confidenceOf
  rw [if_neg h]
  split_ifs with h1 h2
  · exact ⟨fun hx => by simp at hx, fun hx => ((by linarith [hx.2] : False).elim)⟩
  · exact ⟨fun _ => ⟨h2, by linarith⟩, fun _ => rfl⟩
  · exact ⟨fun hx => by simp at hx, fun hx => absurd hx.1 h2⟩

lemma confidenceOf_low_iff {values : List Rat} (h : ssTotOf values ≠ 0) :
    confidenceOf values = .low ↔ rSquaredOf values ≤ 4/10 := by
  unfold confidenceOf
  rw [if_neg h]
  split_ifs with h1 h2
  · exact ⟨fun hx => by simp at hx, fun hx => ((by linarith : False).elim)⟩
  · exact ⟨fun hx => by simp at hx, fun hx => ((by linarith : False).elim)⟩
  · exact ⟨fun _ => by linarith, fun _ => rfl⟩

lemma confidenceOf_of_ssTot_zero {values : List Rat} (h : ssTotOf values = 0) :
    confidenceOf values = .low := by
  unfold confidenceOf
  rw [if_pos h]

/-- Claim C5: for every series with at least 2 points the confidence bucket is a
function of the coefficient of determination of the OLS fit: high exactly when
R2 exceeds 0.7, medium exactly when R2 is in (0.4, 0.7], low otherwise (a
constant series, where the source computes NaN, is bucketed low). -/
theorem c5_confidence_buckets (values : List Rat) (hlen : 2 ≤ values.length) :
    (ssTotOf values ≠ 0 →
      (((calculateTrend values).confidence = .high ↔ rSquaredOf values > 7/10) ∧
       ((calculateTrend values).confidence = .medium ↔
          (4/10 < rSquaredOf values ∧ rSquaredOf values ≤ 7/10)) ∧
       ((calculateTrend values).confidence = .low ↔ rSquaredOf values ≤ 4/10))) ∧
    (ssTotOf values = 0 → (calculateTrend values).confidence = .low) := by
  rw [calculateTrend_of_two_le hlen]
  refine ⟨fun h => ⟨?_, ?_, ?_⟩, fun h => ?_⟩
  · exact confidenceOf_high_iff h
  · exact confidenceOf_medium_iff h
  · exact confidenceOf_low_iff h
  · exact confidenceOf_of_ssTot_zero h

/-- Witness for C5 at the concrete series 0,1,2: both hypotheses are
discharged and the high bucket coincides with R2 = 1 > 0.7. -/
theorem c5_confidence_buckets_witness :
    (calculateTrend [0, 1, 2] : TrendOut).confidence = .high := by
  have hlen : 2 ≤ ([0, 1, 2] : List Rat).length := by
    exact of_decide_eq_true (by with_unfolding_all rfl)
  have hss : ssTotOf [0, 1, 2] ≠ 0 := by
    exact of_decide_eq_true (by with_unfolding_all rfl)
  have h := (c5_confidence_buckets [0, 1, 2] hlen).1 hss
  exact h.1.mpr (of_decide_eq_true (by with_unfolding_all rfl))

/-- Perfectly linear series 0,1,...,99 from the spec test property. -/
def lin100 : List Rat := (List.range 100).map (fun i => (i : Rat))

/-- Claim C6: on the series 0,1,...,99 the trend analyzer reports slope
exactly 1, confidence high, and the fit is exact (R2 = 1). -/
theorem c6_linear_series_trend :
    (calculateTrend lin100).slope = 1 ∧
    (calculateTrend lin100).confidence = .high ∧
    rSquaredOf lin100 = 1 := by
  refine ⟨?_, ?_, ?_⟩ <;> with_unfolding_all rfl

/-! ## Leak heuristic (source function isMemoryLeakPattern) -/

/-- Math.max over a spread; the source only applies it to nonempty windows,
so the value returned on the empty list is arbitrary. -/
def jsMax : List Rat → Rat
  | [] => 0
  | h :: t => t.foldl max h

/-- Math.min analogue of jsMax. -/
def jsMin : List Rat → Rat
  | [] => 0
  | h :: t => t.foldl min h

/-- Single-step decreases of the window, values.slice(0,-1).map((v,i) => v - values[i+1]). -/
def dropsOf (values : List Rat) : List Rat :=
  List.zipWith (fun a b => a - b) values values.tail

/-- Largest single-step decrease across the window. -/
def maxDropOf (values : List Rat) : Rat := jsMax (dropsOf values)

/-- Value range of the window, Math.max(...) - Math.min(...). -/
def valueRangeOf (values : List Rat) : Rat := jsMax values - jsMin values

/-- Embedding of isMemoryLeakPattern: fewer than 20 points is never a leak;
otherwise a leak means slope > 0.1, confidence high, and max drop below 10%
of the value range. -/
def isMemoryLeakPattern (values : List Rat) : Bool :=
  if values.length < 20 then false
  else
    let trend := calculateTrend values
    decide (trend.slope > 1/10) && decide (trend.confidence = .high) &&
      decide (maxDropOf values < valueRangeOf values * (1/10))

/-- Single-step increases of a series, v(i+1) - v(i). -/
def stepsUpOf (values : List Rat) : List Rat :=
  List.zipWith (fun a b => a - b) values.tail values

lemma stepsUpOf_cons_cons (x y : Rat) (t : List Rat) :
    stepsUpOf (x :: y :: t) = (y - x) :: stepsUpOf (y :: t) := rfl

lemma sum_stepsUpOf : ∀ (t : List Rat) (x : Rat),
    (stepsUpOf (x :: t)).sum = (x :: t).getLastD 0 - x
  | [], x => by simp [stepsUpOf]
  | y :: t, x => by
    rw [stepsUpOf_cons_cons, List.sum_cons, sum_stepsUpOf t y]
    simp only [List.getLastD_cons]
    ring

lemma chain'_le_of_steps_nonneg : ∀ l : List Rat,
    (∀ s ∈ stepsUpOf l, 0 ≤ s) → l.Chain' (· ≤ ·)
  | [], _ => trivial
  | [_], _ => by simp
  | x :: y :: t, h => by
    rw [List.chain'_cons]
    refine ⟨?_, chain'_le_of_steps_nonneg (y :: t) ?_⟩
    · have := h (y - x) (by rw [stepsUpOf_cons_cons]; exact List.mem_cons_self _ _)
      linarith
    · intro s hs
      exact h s (by rw [stepsUpOf_cons_cons]; exact List.mem_cons_of_mem _ hs)

lemma foldl_max_getLastD : ∀ (t : List Rat) (x : Rat),
    List.Pairwise (· ≤ ·) (x :: t) → t.foldl max x = (x :: t).getLastD 0
  | [], x, _ => rfl
  | y :: t, x, hp => by
    have hxy : x ≤ y := (List.pairwise_cons.mp hp).1 y (List.mem_cons_self _ _)
    have hp2 : List.Pairwise (· ≤ ·) (y :: t) := (List.pairwise_cons.mp hp).2
    calc (y :: t).foldl max x = t.foldl max (max x y) := rfl
      _ = t.foldl max y := by rw [max_eq_right hxy]
      _ = (y :: t).getLastD 0 := foldl_max_getLastD t y hp2
      _ = (x :: y :: t).getLastD 0 := by simp only [List.getLastD_cons]

lemma foldl_min_self : ∀ (t : List Rat) (x : Rat), (∀ e ∈ t, x ≤ e) → t.foldl min x = x
  | [], _, _ => rfl
  | e :: t, x, h => by
    calc (e :: t).foldl min x = t.foldl min (min x e) := rfl
      _ = t.foldl min x := by rw [min_eq_left (h e (List.mem_cons_self _ _))]
      _ = x := foldl_min_self t x (fun e2 he2 => h e2 (List.mem_cons_of_mem _ he2))

lemma valueRangeOf_monotone (x : Rat) (t : List Rat)
    (hp : List.Pairwise (· ≤ ·) (x :: t)) :
    valueRangeOf (x :: t) = (x :: t).getLastD 0 - x := by
  have hmin : (∀ e ∈ t, x ≤ e) := (List.pairwise_cons.mp hp).1
  show jsMax (x :: t) - jsMin (x :: t) = (x :: t).getLastD 0 - x
  show t.foldl max x - t.foldl min x = (x :: t).getLastD 0 - x
  rw [foldl_max_getLastD t x hp, foldl_min_self t x hmin]

/-- Counterexample for C3: the concrete instance the claim demands cannot
exist.  A monotonically increasing 25-sample series has 24 nonnegative steps
that sum to exactly its value range, so the steps cannot all be below 2% of
that range. -/
theorem c3_counterexample :
    ¬ ∃ l : List Rat, l.length = 25 ∧ (∀ s ∈ stepsUpOf l, 0 ≤ s) ∧
      (∀ s ∈ stepsUpOf l, s < valueRangeOf l * (2/100)) := by
  rintro ⟨l, hlen, hnn, hsm⟩
  rcases l with _ | ⟨x, t⟩
  · simp at hlen
  · have htlen : t.length = 24 := by simpa using hlen
    have hpw : List.Pairwise (· ≤ ·) (x :: t) :=
      List.chain'_iff_pairwise.mp (chain'_le_of_steps_nonneg _ hnn)
    have hrange := valueRangeOf_monotone x t hpw
    have hsum := sum_stepsUpOf t x
    have hlensteps : (stepsUpOf (x :: t)).length = 24 := by
      simp [stepsUpOf, htlen]
    have hne : stepsUpOf (x :: t) ≠ [] := by
      intro hcon
      rw [hcon] at hlensteps
      simp at hlensteps
    obtain ⟨s0, hs0⟩ := List.exists_mem_of_ne_nil _ hne
    have h1 : (0 : Rat) ≤ s0 := hnn s0 hs0
    have h2 : s0 < valueRangeOf (x :: t) * (2/100) := hsm s0 hs0
    have hpos : 0 < valueRangeOf (x :: t) := by linarith
    have hsumle : (stepsUpOf (x :: t)).sum ≤
        (stepsUpOf (x :: t)).length • (valueRangeOf (x :: t) * (2/100)) :=
      List.sum_le_card_nsmul _ _ (fun s hs => le_of_lt (hsm s hs))
    rw [hlensteps, hsum, ← hrange, nsmul_eq_mul] at hsumle
    push_cast at hsumle
    linarith

/-- Restricted to at least 20 points the series used in the claim instances. -/
def leakSeries25 : List Rat := (List.range 25).map (fun i => (i : Rat))

/-- Same rising shape with one drop of exactly half the value range inserted
after index 12 (range 46/3, drop 12 - 13/3 = 23/3). -/
def dropSeries25 : List Rat :=
  (List.range 13).map (fun i => (i : Rat)) ++ (List.range 12).map (fun i => (13/3 : Rat) + i)

/-- Claim C3 as amended: the heuristic classifies a window of at least 20
points as a leak exactly when the fitted slope exceeds 0.1, the confidence
bucket is high, and the largest single-step decrease is below 10% of the
value range; it is true on the monotonically increasing 25-sample series
0,1,...,24 (uniform steps of 1/24 of the range, the smallest possible bound,
since 24 monotone steps must sum to the whole range) and false once a
50%-of-range drop is inserted; fewer than 20 points is never a leak. -/
theorem c3_leak_heuristic_amended (values : List Rat) :
    (isMemoryLeakPattern values = true ↔
      (20 ≤ values.length ∧ (calculateTrend values).slope > 1/10 ∧
        (calculateTrend values).confidence = .high ∧
        maxDropOf values < valueRangeOf values * (1/10))) ∧
    (values.length < 20 → isMemoryLeakPattern values = false) ∧
    isMemoryLeakPattern leakSeries25 = true ∧
    isMemoryLeakPattern dropSeries25 = false := by
  refine ⟨?_, fun h => by simp only [isMemoryLeakPattern, if_pos h], ?_, ?_⟩
  · by_cases hl : values.length < 20
    · simp only [isMemoryLeakPattern, if_pos hl]
      exact ⟨fun h => by simp at h, fun h => absurd h.1 (by omega)⟩
    · simp only [isMemoryLeakPattern, if_neg hl, Bool.and_eq_true, decide_eq_true_eq]
      constructor
      · rintro ⟨⟨h1, h2⟩, h3⟩
        exact ⟨by omega, h1, h2, h3⟩
      · rintro ⟨_, h1, h2, h3⟩
        exact ⟨⟨h1, h2⟩, h3⟩
  · with_unfolding_all rfl
  · with_unfolding_all rfl

/-- Witness for C3: the short-series conjunct applied at a concrete
3-point series. -/
theorem c3_leak_heuristic_amended_witness :
    isMemoryLeakPattern [(1 : Rat), 2, 3] = false :=
  (c3_leak_heuristic_amended [1, 2, 3]).2.1 (of_decide_eq_true (by with_unfolding_all rfl))

/-! ## Alert engine (source function checkAlerts)

The source keeps one latch object per host in the alertState map; the
embedding threads one LatchState through the evaluation.  A fresh latch
entry is the all-false record, matching the falsy undefined fields of a
freshly created alertState entry.  In each branch the source either fires
and sets the flag true, leaves a firing flag alone, or resets the flag to
false, so the post-latch of each kind is exactly the Boolean test of value over
threshold.  Alerts are appended in evaluation order cpu, ram, gpu,
temperature, throttled. -/

inductive Severity where
  | warning
  | error
deriving DecidableEq, Repr

inductive AlertKind where
  | cpu
  | ram
  | gpu
  | temperature
  | throttled
deriving DecidableEq, Repr

inductive HostStatus where
  | online
  | throttled
deriving DecidableEq, Repr

structure AlertThresholds where
  cpu : Rat
  ram : Rat
  gpu : Rat
  temp : Rat
deriving DecidableEq, Repr

/-- Defaults of ALERT_THRESHOLDS when no environment override is present. -/
def defaultThresholds : AlertThresholds := ⟨90, 90, 90, 85⟩

structure LatchState where
  cpu : Bool
  ram : Bool
  gpu : Bool
  temp : Bool
  throttled : Bool
deriving DecidableEq, Repr

/-- Fresh latch entry, alertState[serverId] just created (all flags falsy). -/
def freshLatch : LatchState := ⟨false, false, false, false, false⟩

/-- Fields of one collected snapshot that checkAlerts reads.  cpuTemp is
None when the sensor reported null; the source compares null > threshold,
which coerces null to 0, modelled by getD 0. -/
structure MetricsSnapshot where
  serverId : String
  cpuUsage : Rat
  cpuTemp : Option Rat
  ramUsed : Rat
  ramTotal : Rat
  gpuUsage : Option Rat
  status : HostStatus
deriving DecidableEq, Repr

/-- One alert as constructed and persisted by sendAlert (id, timestamps and
message text omitted; they are never read back by the logic under claim). -/
structure AlertRec where
  serverId : String
  kind : AlertKind
  severity : Severity
deriving DecidableEq, Repr

/-- Embedding of checkAlerts for one snapshot: returns the updated latch and
the alerts emitted during this evaluation, in source order. -/
def checkAlerts (th : AlertThresholds) (m : MetricsSnapshot) (s : LatchState) :
    LatchState × List AlertRec :=
  let cpuOver : Bool := decide (m.cpuUsage > th.cpu)
  let ramOver : Bool := decide (m.ramUsed / m.ramTotal * 100 > th.ram)
  let gpuOver : Bool := match m.gpuUsage with
    | some u => decide (u > th.gpu)
    | none => false
  let tempOver : Bool := decide (m.cpuTemp.getD 0 > th.temp)
  let thrOver : Bool := decide (m.status = .throttled)
  let alerts :=
    (if cpuOver && !s.cpu then [(⟨m.serverId, .cpu, .error⟩ : AlertRec)] else []) ++
    (if ramOver && !s.ram then [(⟨m.serverId, .ram, .error⟩ : AlertRec)] else []) ++
    (if gpuOver && !s.gpu then [(⟨m.serverId, .gpu, .error⟩ : AlertRec)] else []) ++
    (if tempOver && !s.temp then [(⟨m.serverId, .temperature, .warning⟩ : AlertRec)] else []) ++
    (if thrOver && !s.throttled then [(⟨m.serverId, .throttled, .warning⟩ : AlertRec)] else [])
  (⟨cpuOver, ramOver, gpuOver, tempOver, thrOver⟩, alerts)

/-- Evaluations over a sequence of collection ticks for one host. -/
def runAlerts (th : AlertThresholds) : LatchState → List MetricsSnapshot →
    LatchState × List AlertRec
  | s, [] => (s, [])
  | s, m :: ms =>
    let r1 := checkAlerts th m s
    let r2 := runAlerts th r1.1 ms
    (r2.1, r1.2 ++ r2.2)

/-- Number of cpu-kind alerts in an emission list. -/
def cpuAlertCount (l : List AlertRec) : Nat :=
  l.countP (fun a => decide (a.kind = AlertKind.cpu))

/-- Number of rising edges of a Boolean signal, given the level before the
first sample. -/
def risingEdges (prev : Bool) : List Bool → Nat
  | [] => 0
  | b :: bs => (if b && !prev then 1 else 0) + risingEdges b bs

lemma checkAlerts_latch (th : AlertThresholds) (m : MetricsSnapshot) (s : LatchState) :
    (checkAlerts th m s).1 =
      ⟨decide (m.cpuUsage > th.cpu),
       decide (m.ramUsed / m.ramTotal * 100 > th.ram),
       (match m.gpuUsage with
         | some u => decide (u > th.gpu)
         | none => false),
       decide (m.cpuTemp.getD 0 > th.temp),
       decide (m.status = .throttled)⟩ := rfl

lemma countP_cpu_ite (c : Bool) (sid : String) (k : AlertKind) (sev : Severity) :
    List.countP (fun a => decide (a.kind = AlertKind.cpu))
      (if c = true then [(⟨sid, k, sev⟩ : AlertRec)] else []) =
      (if c = true then (if k = AlertKind.cpu then 1 else 0) else 0) := by
  cases c <;> cases k <;> simp [List.countP_cons]

lemma checkAlerts_cpu_count (th : AlertThresholds) (m : MetricsSnapshot) (s : LatchState) :
    cpuAlertCount (checkAlerts th m s).2 =
      if decide (m.cpuUsage > th.cpu) && !s.cpu then 1 else 0 := by
  simp only [checkAlerts, cpuAlertCount, List.countP_append, countP_cpu_ite]
  simp

lemma runAlerts_cpu_count (th : AlertThresholds) :
    ∀ (ms : List MetricsSnapshot) (s : LatchState),
      cpuAlertCount (runAlerts th s ms).2 =
        risingEdges s.cpu (ms.map (fun mm => decide (mm.cpuUsage > th.cpu)))
  | [], s => rfl
  | m :: ms, s => by
    simp only [runAlerts, List.map_cons, risingEdges, cpuAlertCount, List.countP_append]
    have h1 := checkAlerts_cpu_count th m s
    have h2 := runAlerts_cpu_count th ms (checkAlerts th m s).1
    simp only [cpuAlertCount] at h1 h2
    rw [h1, h2, checkAlerts_latch]

/-- Claim C1: cpu alerting is edge-triggered.  In one evaluation, exactly one
cpu alert is emitted when usage is above threshold and the latch was quiet,
none otherwise; the cpu latch afterwards is firing exactly when usage is
above threshold (so an at-or-below evaluation silently returns it to quiet);
and over any sequence of evaluations the number of recorded cpu alerts is
exactly the number of quiet-to-firing crossings of the usage signal. -/
theorem c1_cpu_alert_edge_triggered (th : AlertThresholds) (m : MetricsSnapshot)
    (s : LatchState) (ms : List MetricsSnapshot) :
    cpuAlertCount (checkAlerts th m s).2 =
      (if decide (m.cpuUsage > th.cpu) && !s.cpu then 1 else 0) ∧
    (checkAlerts th m s).1.cpu = decide (m.cpuUsage > th.cpu) ∧
    cpuAlertCount (runAlerts th s ms).2 =
      risingEdges s.cpu (ms.map (fun mm => decide (mm.cpuUsage > th.cpu))) :=
  ⟨checkAlerts_cpu_count th m s, by rw [checkAlerts_latch], runAlerts_cpu_count th ms s⟩

/-- Severity that the source hard-codes for each alert kind. -/
def severityFor : AlertKind → Severity
  | .cpu => .error
  | .ram => .error
  | .gpu => .error
  | .temperature => .warning
  | .throttled => .warning

/-- Claim C10: every alert the engine records carries the severity determined
by its kind: error for cpu, ram and gpu, warning for temperature and
throttled; no other severity value is ever recorded. -/
theorem c10_severity_by_kind (th : AlertThresholds) (m : MetricsSnapshot)
    (s : LatchState) (a : AlertRec) (ha : a ∈ (checkAlerts th m s).2) :
    a.severity = severityFor a.kind := by
  simp only [checkAlerts, List.mem_append] at ha
  rcases ha with ((((h | h) | h) | h) | h) <;> split at h <;> simp_all [severityFor]

/-- Witness for C10: a concrete over-threshold snapshot against a quiet latch
emits the cpu alert, whose severity agrees with severityFor. -/
theorem c10_severity_by_kind_witness :
    (⟨"srv", .cpu, .error⟩ : AlertRec) ∈
      (checkAlerts defaultThresholds ⟨"srv", 95, none, 4, 16, none, .online⟩ freshLatch).2 ∧
    (⟨"srv", .cpu, .error⟩ : AlertRec).severity =
      severityFor (⟨"srv", .cpu, .error⟩ : AlertRec).kind := by
  have hm : (⟨"srv", .cpu, .error⟩ : AlertRec) ∈
      (checkAlerts defaultThresholds ⟨"srv", 95, none, 4, 16, none, .online⟩ freshLatch).2 :=
    of_decide_eq_true (by with_unfolding_all rfl)
  exact ⟨hm, c10_severity_by_kind defaultThresholds _ freshLatch _ hm⟩

/-! ## Notifier fan-out (source functions sendAlert, sendEmailAlert,
sendSlackAlert, sendDiscordAlert)

Each per-channel sender returns immediately when its channel is not
configured, and otherwise wraps the whole delivery in try/catch, so a
transport failure is logged inside the channel and never propagates.  The
delivery environment (whether each transport would succeed) is modelled as
explicit Booleans.  sendAlert first stores the alert (its own try/catch,
modelled by persistOk) and then dispatches to all three channels; its
result is never inspected by checkAlerts, which sets the latch after the
await returns, and since no sender can throw, the await always returns. -/

inductive ChannelResult where
  | skipped
  | sent
  | failedLogged
deriving DecidableEq, Repr

/-- Which notifier channels have configuration present (SMTP_HOST,
SLACK_WEBHOOK_URL, DISCORD_WEBHOOK_URL). -/
structure NotifierConfig where
  smtpHost : Bool
  slackWebhook : Bool
  discordWebhook : Bool
deriving DecidableEq, Repr

/-- Whether each transport would succeed if attempted. -/
structure DeliveryOutcomes where
  emailOk : Bool
  slackOk : Bool
  discordOk : Bool
deriving DecidableEq, Repr

/-- Embedding of sendEmailAlert: skip when unconfigured, otherwise the
try/catch confines a transport failure to a logged result. -/
def sendEmailAlert (configured ok : Bool) : ChannelResult :=
  if !configured then .skipped else if ok then .sent else .failedLogged

/-- Embedding of sendSlackAlert, same containment discipline. -/
def sendSlackAlert (configured ok : Bool) : ChannelResult :=
  if !configured then .skipped else if ok then .sent else .failedLogged

/-- Embedding of sendDiscordAlert, same containment discipline. -/
def sendDiscordAlert (configured ok : Bool) : ChannelResult :=
  if !configured then .skipped else if ok then .sent else .failedLogged

/-- Result of one sendAlert call: what was persisted and what each channel
delivery did. -/
structure SendOutcome where
  stored : List AlertRec
  email : ChannelResult
  slack : ChannelResult
  discord : ChannelResult
deriving DecidableEq, Repr

/-- Embedding of sendAlert: persist the alert when the database is ready and
the insert does not fail, then dispatch to all three channels. -/
def sendAlert (cfg : NotifierConfig) (out : DeliveryOutcomes) (dbReady persistOk : Bool)
    (a : AlertRec) : SendOutcome :=
  ⟨if dbReady && persistOk then [a] else [],
   sendEmailAlert cfg.smtpHost out.emailOk,
   sendSlackAlert cfg.slackWebhook out.slackOk,
   sendDiscordAlert cfg.discordWebhook out.discordOk⟩

/-- checkAlerts with its sendAlert side effects: the latch update is computed
exactly as in checkAlerts (the source awaits sendAlert, which cannot throw,
and ignores its result), and each emitted alert goes through sendAlert. -/
def checkAlertsWithDispatch (cfg : NotifierConfig) (out : DeliveryOutcomes)
    (dbReady persistOk : Bool) (th : AlertThresholds) (m : MetricsSnapshot)
    (s : LatchState) : LatchState × List SendOutcome :=
  let r := checkAlerts th m s
  (r.1, r.2.map (fun a => sendAlert cfg out dbReady persistOk a))

/-- Claim C9: a delivery failure in one channel is contained in that channel.
The persisted record of the alert does not depend on any delivery outcome;
whether a channel is attempted is decided only by its configuration,
regardless of every delivery outcome; the per-channel result is unchanged
when the outcomes of the other channels change; and the latch update of an
evaluation is the same whatever the delivery outcomes, with the cpu latch
firing exactly when usage is above threshold. -/
theorem c9_notifier_failure_containment (cfg : NotifierConfig)
    (out out2 : DeliveryOutcomes) (e1 s1 d1 e2 d2 : Bool) (dbReady persistOk : Bool)
    (a : AlertRec) (th : AlertThresholds) (m : MetricsSnapshot) (s : LatchState) :
    (sendAlert cfg out dbReady persistOk a).stored =
      (sendAlert cfg out2 dbReady persistOk a).stored ∧
    decide ((sendAlert cfg out dbReady persistOk a).email = .skipped) = !cfg.smtpHost ∧
    decide ((sendAlert cfg out dbReady persistOk a).slack = .skipped) = !cfg.slackWebhook ∧
    decide ((sendAlert cfg out dbReady persistOk a).discord = .skipped) = !cfg.discordWebhook ∧
    (sendAlert cfg ⟨e1, s1, d1⟩ dbReady persistOk a).slack =
      (sendAlert cfg ⟨e2, s1, d2⟩ dbReady persistOk a).slack ∧
    (sendAlert cfg ⟨e1, s1, d1⟩ dbReady persistOk a).email =
      (sendAlert cfg ⟨e1, s1, d2⟩ dbReady persistOk a).email ∧
    (checkAlertsWithDispatch cfg out dbReady persistOk th m s).1 = (checkAlerts th m s).1 ∧
    (checkAlertsWithDispatch cfg out dbReady persistOk th m s).1.cpu =
      decide (m.cpuUsage > th.cpu) := by
  obtain ⟨cs, cl, cd⟩ := cfg
  obtain ⟨eo, so, dso⟩ := out
  refine ⟨rfl, ?_, ?_, ?_, rfl, rfl, rfl, ?_⟩
  · cases cs <;> cases eo <;> simp [sendAlert, sendEmailAlert]
  · cases cl <;> cases so <;> simp [sendAlert, sendSlackAlert]
  · cases cd <;> cases dso <;> simp [sendAlert, sendDiscordAlert]
  · rw [show (checkAlertsWithDispatch ⟨cs, cl, cd⟩ ⟨eo, so, dso⟩ dbReady persistOk th m s).1 =
      (checkAlerts th m s).1 from rfl, checkAlerts_latch]

/-! ## Trend predictions (source function analyzeTrends) -/

/-- Math.round: round half toward positive infinity. -/
def jsRound (q : Rat) : Int := ⌊q + 1/2⌋

/-- JavaScript slice(-k): the last k elements (the whole list when shorter). -/
def sliceLast (k : Nat) (l : List α) : List α := l.drop (l.length - k)

/-- Fields of one history row that analyzeTrends reads.  A null cpu
temperature behaves as 0 in every arithmetic operation the analysis applies
to it, so it is mapped to 0 at this boundary. -/
structure HistPoint where
  cpuUsage : Rat
  cpuTemp : Rat
  ramUsed : Rat
  ramTotal : Rat
deriving DecidableEq, Repr

inductive PredKind where
  | cpu
  | ram
  | temperature
  | memoryLeak
deriving DecidableEq, Repr

/-- One prediction entry; the human-readable message is formatted from the
numeric fields and carries hoursToThreshold, which is kept here as a field. -/
structure Prediction where
  kind : PredKind
  severity : Severity
  hoursToThreshold : Option Int
  currentValue : Int
  confidence : Confidence
deriving DecidableEq, Repr

/-- Projection used by the source for the cpu, ram and temperature branches:
Math.round((threshold - average) / slope / 12). -/
def hoursToThresholdCode (threshold average slope : Rat) : Int :=
  jsRound ((threshold - average) / slope / 12)

/-- Modelled from the spec: the projection scaled to hours by the actual
sampling cadence.  The collection tick runs every 5 seconds (setInterval
5000), which is 720 samples per hour, so (threshold - average) / slope
samples is divided by 720, not by the hard-coded 12 the source uses. -/
def hoursToThresholdCadence (threshold average slope : Rat) : Int :=
  jsRound ((threshold - average) / slope / 720)

/-- Embedding of analyzeTrends: the four prediction branches over the last
100 points, in source order. -/
def analyzeTrends (th : AlertThresholds) (history : List HistPoint) : List Prediction :=
  let recent := sliceLast 100 history
  let cpuT := calculateTrend (recent.map (fun d => d.cpuUsage))
  let cpuPreds : List Prediction :=
    if cpuT.slope > 1/2 ∧ cpuT.average > 70 then
      [⟨.cpu, .warning, some (hoursToThresholdCode th.cpu cpuT.average cpuT.slope),
        jsRound cpuT.average, cpuT.confidence⟩]
    else []
  let ramT := calculateTrend (recent.map (fun d => d.ramUsed / d.ramTotal * 100))
  let ramPreds : List Prediction :=
    if ramT.slope > 3/10 ∧ ramT.average > 70 then
      [⟨.ram, .warning, some (hoursToThresholdCode th.ram ramT.average ramT.slope),
        jsRound ramT.average, ramT.confidence⟩]
    else []
  let tempT := calculateTrend (recent.map (fun d => d.cpuTemp))
  let tempPreds : List Prediction :=
    if tempT.slope > 2/10 ∧ tempT.average > 70 then
      [⟨.temperature, if tempT.average > 75 then .error else .warning,
        some (hoursToThresholdCode th.temp tempT.average tempT.slope),
        jsRound tempT.average, tempT.confidence⟩]
    else []
  let ramValues := recent.map (fun d => d.ramUsed)
  let leakPreds : List Prediction :=
    if isMemoryLeakPattern ramValues then
      [⟨.memoryLeak, .error, none, jsRound ((ramValues.getLast?).getD 0), .high⟩]
    else []
  cpuPreds ++ ramPreds ++ tempPreds ++ leakPreds

/-- History of 21 ticks whose cpu usage climbs 65,66,...,85 (average 75,
slope exactly 1 per sample) with constant temperature and RAM. -/
def hist21 : List HistPoint := (List.range 21).map (fun i => ⟨65 + (i : Rat), 40, 8, 16⟩)

/-- Claim C2, settled against the code: on hist21 the analysis emits exactly
one cpu prediction whose projected time-to-threshold is
round((90 - 75) / 1 / 12) = 1 hour, while scaling by the actual 5-second
cadence (720 samples per hour) gives round(15/720) = 0 hours; the hard-coded
constant 12 disagrees with its own sampling interval. -/
theorem c2_hours_scaling_divergence :
    analyzeTrends defaultThresholds hist21 =
      [⟨.cpu, .warning, some (hoursToThresholdCode 90 75 1), 75, .high⟩] ∧
    hoursToThresholdCode 90 75 1 = 1 ∧
    hoursToThresholdCadence 90 75 1 = 0 ∧
    hoursToThresholdCode 90 75 1 ≠ hoursToThresholdCadence 90 75 1 := by
  refine ⟨?_, ?_, ?_, ?_⟩
  · with_unfolding_all rfl
  · with_unfolding_all rfl
  · with_unfolding_all rfl
  · exact of_decide_eq_true (by with_unfolding_all rfl)

/-! ## Metric store and HTTP query handlers

The SQLite tables are modelled as lists of rows; INSERT appends, DELETE
filters, SELECT filters and sorts.  Columns that no handler under claim
reads back (server name, hostname, os, power and network figures, message
text) are omitted from the row model.  Each handler is given the store it
can reach through the shared db handle and returns the store it leaves
behind together with its response, translating the handler body: bodies
that only run SELECT return the store unchanged, while the GET /metrics
body calls storeMetrics.  Alert timestamps are ISO-8601 strings in the
source; toISOString produces a fixed-width format on which string order
coincides with chronological order, so the model keeps them numeric. -/

structure MetricRow where
  timestamp : Int
  serverId : String
  cpuUsage : Rat
  cpuTemp : Option Rat
  ramUsed : Rat
  ramTotal : Rat
deriving DecidableEq, Repr

structure AlertRow where
  timestamp : Int
  serverId : String
  kind : AlertKind
  severity : Severity
deriving DecidableEq, Repr

/-- Insertion step of the sort used to model SQL ORDER BY: r is placed
before the first element it must precede. -/
def insertSortedBy (later : α → α → Bool) (r : α) : List α → List α
  | [] => [r]
  | x :: xs => if later r x then r :: x :: xs else x :: insertSortedBy later r xs

/-- Model of SQL ORDER BY under the comparator later. -/
def sortListBy (later : α → α → Bool) : List α → List α
  | [] => []
  | x :: xs => insertSortedBy later x (sortListBy later xs)

lemma mem_insertSortedBy (later : α → α → Bool) (r : α) :
    ∀ (l : List α) (a : α), a ∈ insertSortedBy later r l ↔ (a = r ∨ a ∈ l)
  | [], a => by simp [insertSortedBy]
  | x :: xs, a => by
    simp only [insertSortedBy]
    split
    · simp [List.mem_cons]
    · rw [List.mem_cons, mem_insertSortedBy later r xs a, List.mem_cons]
      tauto

lemma mem_sortListBy (later : α → α → Bool) :
    ∀ (l : List α) (a : α), a ∈ sortListBy later l ↔ a ∈ l
  | [], _ => Iff.rfl
  | x :: xs, a => by
    simp only [sortListBy]
    rw [mem_insertSortedBy, mem_sortListBy later xs a, List.mem_cons]

lemma length_insertSortedBy (later : α → α → Bool) (r : α) :
    ∀ l : List α, (insertSortedBy later r l).length = l.length + 1
  | [] => rfl
  | x :: xs => by
    simp only [insertSortedBy]
    split
    · rfl
    · rw [List.length_cons, length_insertSortedBy later r xs, List.length_cons]

lemma length_sortListBy (later : α → α → Bool) :
    ∀ l : List α, (sortListBy later l).length = l.length
  | [] => rfl
  | x :: xs => by
    simp only [sortListBy]
    rw [length_insertSortedBy, length_sortListBy later xs, List.length_cons]

/-- ORDER BY timestamp DESC. -/
def sortByTsDesc (l : List MetricRow) : List MetricRow :=
  sortListBy (fun a b => decide (a.timestamp > b.timestamp)) l

/-- ORDER BY timestamp ASC. -/
def sortByTsAsc (l : List MetricRow) : List MetricRow :=
  sortListBy (fun a b => decide (a.timestamp < b.timestamp)) l

/-- WHERE server_id = id. -/
def rowsForHost (store : List MetricRow) (id : String) : List MetricRow :=
  store.filter (fun r => decide (r.serverId = id))

/-- Rows returned by the history SELECT: host match, timestamp above the
period cutoff, ascending by timestamp. -/
def historyRows (store : List MetricRow) (id : String) (cutoffTime : Int) : List MetricRow :=
  sortByTsAsc (store.filter (fun r => decide (r.serverId = id) && decide (r.timestamp > cutoffTime)))

inductive HistResponse where
  | notReady
  | ok (rows : List MetricRow)
deriving DecidableEq, Repr

/-- Embedding of the GET /history/:serverId handler; cutoffTime stands for
now - hours*3600000 computed from the period query parameter. -/
def handleHistoryGet (dbReady : Bool) (store : List MetricRow) (id : String)
    (cutoffTime : Int) : List MetricRow × HistResponse :=
  (store, if !dbReady then .notReady else .ok (historyRows store id cutoffTime))

/-- Row written by storeMetrics for one collected snapshot. -/
def metricRowOf (now : Int) (m : MetricsSnapshot) : MetricRow :=
  ⟨now, m.serverId, m.cpuUsage, m.cpuTemp, m.ramUsed, m.ramTotal⟩

/-- Embedding of storeMetrics: INSERT appends one row. -/
def storeMetrics (now : Int) (m : MetricsSnapshot) (store : List MetricRow) : List MetricRow :=
  store ++ [metricRowOf now m]

inductive MetricsResponse where
  | ok (m : MetricsSnapshot)
  | failed
deriving DecidableEq, Repr

/-- Embedding of the GET /metrics handler: collect, store on success, 500 on
a failed collection. -/
def handleMetricsGet (now : Int) (collected : Option MetricsSnapshot)
    (store : List MetricRow) : List MetricRow × MetricsResponse :=
  match collected with
  | some m => (storeMetrics now m store, .ok m)
  | none => (store, .failed)

/-- Filter of the alerts SELECT for an optional serverId query parameter. -/
def alertsFilter (filterId : Option String) (a : AlertRow) : Bool :=
  match filterId with
  | some id => decide (a.serverId = id)
  | none => true

inductive AlertsResponse where
  | notReady
  | ok (alerts : List AlertRow) (total : Nat)
deriving DecidableEq, Repr

/-- Embedding of the GET /alerts handler: filtered rows most-recent-first up
to the limit, plus the total count. -/
def handleAlertsGet (dbReady : Bool) (astore : List AlertRow) (filterId : Option String)
    (limit : Nat) : List AlertRow × AlertsResponse :=
  (astore,
    if !dbReady then .notReady
    else .ok
      ((sortListBy (fun a b => decide (a.timestamp > b.timestamp))
        (astore.filter (alertsFilter filterId))).take limit)
      (astore.filter (alertsFilter filterId)).length)

/-- Transformation of a database row back into the shape analyzeTrends
reads; a null temperature behaves as 0 downstream. -/
def toHistPoint (r : MetricRow) : HistPoint :=
  ⟨r.cpuUsage, r.cpuTemp.getD 0, r.ramUsed, r.ramTotal⟩

/-- Rows fetched by the predictions SELECT: host match, newest first,
LIMIT 100. -/
def predictionRows (store : List MetricRow) (id : String) : List MetricRow :=
  (sortByTsDesc (rowsForHost store id)).take 100

inductive PredResponse where
  | notReady
  | insufficient (serverId : String)
  | results (serverId : String) (predictions : List Prediction) (analyzedPoints : Nat)
deriving DecidableEq, Repr

/-- HTTP status of the predictions response; the insufficient-data reply is
sent through the plain res.json path, status 200. -/
def statusCode : PredResponse → Nat
  | .notReady => 503
  | .insufficient _ => 200
  | .results _ _ _ => 200

/-- Predictions array of the response body; the insufficient-data body
carries an explicitly empty array. -/
def predictionsOf : PredResponse → List Prediction
  | .results _ p _ => p
  | _ => []

/-- Whether the response body carries the insufficient-data message. -/
def hasInsufficientMessage : PredResponse → Bool
  | .insufficient _ => true
  | _ => false

/-- Embedding of the GET /predictions/:serverId handler. -/
def handlePredictionsGet (th : AlertThresholds) (dbReady : Bool) (store : List MetricRow)
    (id : String) : List MetricRow × PredResponse :=
  (store,
    if !dbReady then .notReady
    else
      let rows := predictionRows store id
      if rows.length < 10 then .insufficient id
      else .results id (analyzeTrends th ((rows.reverse).map toHistPoint)) rows.length)

/-! ## Retention eviction (initializeDatabase cleanup) -/

/-- Cutoff used by the startup cleanup: now minus 7 days in milliseconds. -/
def retentionCutoff (now : Int) : Int := now - 7 * 24 * 60 * 60 * 1000

/-- DELETE FROM metrics WHERE timestamp < cutoff keeps exactly the rows at
or after the cutoff. -/
def evictMetricRows (cutoff : Int) (store : List MetricRow) : List MetricRow :=
  store.filter (fun r => !decide (r.timestamp < cutoff))

/-- DELETE FROM alerts WHERE timestamp < cutoff, same shape. -/
def evictAlertRows (cutoff : Int) (astore : List AlertRow) : List AlertRow :=
  astore.filter (fun a => !decide (a.timestamp < cutoff))

/-- Host id used by the concrete witness inputs below. -/
def srvA : String := "a"

/-- Counterexample for C4: handling GET /metrics is not read-only.  With an
empty store and a successfully collected snapshot, the store after the
request differs from the store before it (the handler calls storeMetrics). -/
theorem c4_counterexample :
    (handleMetricsGet 0 (some ⟨"srv", 10, none, 4, 16, none, .online⟩) []).1 ≠ [] :=
  of_decide_eq_true (by with_unfolding_all rfl)

/-- Claim C4 as amended: the history, predictions and alerts GET handlers
leave the stores unchanged, but GET /metrics appends the freshly collected
sample to the metric store (and leaves it unchanged only when collection
fails), so the periodic collection tick is not the only writer. -/
theorem c4_read_only_amended (dbReady : Bool) (store : List MetricRow)
    (astore : List AlertRow) (id : String) (cutoffTime : Int) (fid : Option String)
    (lim : Nat) (th : AlertThresholds) (now : Int) (m : MetricsSnapshot) :
    (handleHistoryGet dbReady store id cutoffTime).1 = store ∧
    (handlePredictionsGet th dbReady store id).1 = store ∧
    (handleAlertsGet dbReady astore fid lim).1 = astore ∧
    (handleMetricsGet now (some m) store).1 = store ++ [metricRowOf now m] ∧
    (handleMetricsGet now none store).1 = store :=
  ⟨rfl, rfl, rfl, rfl, rfl⟩

/-- Claim C7: eviction with the 7-day cutoff retains exactly the samples at
or after the cutoff (no gaps inside the retained window), is idempotent,
preserves the order of the retained rows, and afterwards any history query
for a host returns only samples from the retained window; alert rows are
evicted by the same rule. -/
theorem c7_retention_eviction (now : Int) (store : List MetricRow)
    (astore : List AlertRow) (id : String) (since : Int) :
    (∀ r : MetricRow, r ∈ evictMetricRows (retentionCutoff now) store ↔
      (r ∈ store ∧ retentionCutoff now ≤ r.timestamp)) ∧
    evictMetricRows (retentionCutoff now) (evictMetricRows (retentionCutoff now) store) =
      evictMetricRows (retentionCutoff now) store ∧
    (evictMetricRows (retentionCutoff now) store).Sublist store ∧
    (∀ r : MetricRow, r ∈ historyRows (evictMetricRows (retentionCutoff now) store) id since →
      retentionCutoff now ≤ r.timestamp) ∧
    (∀ r : MetricRow, r ∈ store → r.serverId = id → r.timestamp > since →
      retentionCutoff now ≤ r.timestamp →
      r ∈ historyRows (evictMetricRows (retentionCutoff now) store) id since) ∧
    (∀ a : AlertRow, a ∈ evictAlertRows (retentionCutoff now) astore ↔
      (a ∈ astore ∧ retentionCutoff now ≤ a.timestamp)) ∧
    evictAlertRows (retentionCutoff now) (evictAlertRows (retentionCutoff now) astore) =
      evictAlertRows (retentionCutoff now) astore := by
  refine ⟨?_, ?_, ?_, ?_, ?_, ?_, ?_⟩
  · intro r
    simp [evictMetricRows, List.mem_filter, not_lt]
  · simp only [evictMetricRows, List.filter_filter, Bool.and_self]
  · exact List.filter_sublist _
  · intro r hr
    rw [historyRows, sortByTsAsc, mem_sortListBy, List.mem_filter] at hr
    have h2 := (List.mem_filter.mp hr.1).2
    simp only [Bool.not_eq_true', decide_eq_false_iff_not, not_lt] at h2
    exact h2
  · intro r hr hid hts hcut
    rw [historyRows, sortByTsAsc, mem_sortListBy, List.mem_filter]
    refine ⟨List.mem_filter.mpr ⟨hr, ?_⟩, ?_⟩
    · simp [not_lt, hcut]
    · simp [hid, hts]
  · intro a
    simp [evictAlertRows, List.mem_filter, not_lt]
  · simp only [evictAlertRows, List.filter_filter, Bool.and_self]

/-- Witness for C7 at a concrete two-row store spanning the cutoff: the
recent row survives eviction and the theorem yields its retention bound. -/
theorem c7_retention_eviction_witness :
    (⟨1000000000000, "a", 60, none, 8, 16⟩ : MetricRow) ∈
      evictMetricRows (retentionCutoff 1000000000000)
        [⟨0, "a", 50, none, 8, 16⟩, ⟨1000000000000, "a", 60, none, 8, 16⟩] ∧
    retentionCutoff 1000000000000 ≤
      (⟨1000000000000, "a", 60, none, 8, 16⟩ : MetricRow).timestamp := by
  have he : evictMetricRows (retentionCutoff 1000000000000)
      [⟨0, "a", 50, none, 8, 16⟩, ⟨1000000000000, "a", 60, none, 8, 16⟩] =
      [⟨1000000000000, "a", 60, none, 8, 16⟩] := by
    with_unfolding_all rfl
  have hm : (⟨1000000000000, "a", 60, none, 8, 16⟩ : MetricRow) ∈
      evictMetricRows (retentionCutoff 1000000000000)
        [⟨0, "a", 50, none, 8, 16⟩, ⟨1000000000000, "a", 60, none, 8, 16⟩] := by
    rw [he]
    exact List.mem_singleton.mpr rfl
  have h := (c7_retention_eviction 1000000000000
    [⟨0, "a", 50, none, 8, 16⟩, ⟨1000000000000, "a", 60, none, 8, 16⟩] [] srvA 0).1
  exact ⟨hm, ((h _).mp hm).2⟩

lemma handlePredictionsGet_ready (th : AlertThresholds) (store : List MetricRow) (id : String) :
    (handlePredictionsGet th true store id).2 =
      (if (predictionRows store id).length < 10 then PredResponse.insufficient id
       else .results id (analyzeTrends th (((predictionRows store id).reverse).map toHistPoint))
              (predictionRows store id).length) := rfl

/-- Claim C8: with the database ready, the predictions endpoint always
answers with status 200; below 10 stored samples for the host it returns the
insufficient-data body with an empty predictions list; at 10 or more it
returns the predictions together with the number of analyzed points, which
is the stored count capped at the 100-row query limit. -/
theorem c8_predictions_insufficient_data (th : AlertThresholds) (store : List MetricRow)
    (id : String) :
    statusCode (handlePredictionsGet th true store id).2 = 200 ∧
    ((rowsForHost store id).length < 10 →
      (handlePredictionsGet th true store id).2 = .insufficient id ∧
      predictionsOf (handlePredictionsGet th true store id).2 = [] ∧
      hasInsufficientMessage (handlePredictionsGet th true store id).2 = true) ∧
    (10 ≤ (rowsForHost store id).length →
      ∃ preds, (handlePredictionsGet th true store id).2 =
        .results id preds (min 100 (rowsForHost store id).length)) := by
  have hrl : (predictionRows store id).length = min 100 (rowsForHost store id).length := by
    rw [predictionRows, List.length_take, sortByTsDesc, length_sortListBy]
  refine ⟨?_, fun h => ?_, fun h => ?_⟩
  · rw [handlePredictionsGet_ready]
    split <;> rfl
  · have hlt : (predictionRows store id).length < 10 := by rw [hrl]; omega
    refine ⟨?_, ?_, ?_⟩ <;> rw [handlePredictionsGet_ready, if_pos hlt] <;> rfl
  · have hge : ¬ (predictionRows store id).length < 10 := by rw [hrl]; omega
    refine ⟨analyzeTrends th (((predictionRows store id).reverse).map toHistPoint), ?_⟩
    rw [handlePredictionsGet_ready, if_neg hge, hrl]

/-- Ten stored samples for host srvA, enough for predictions. -/
def store10 : List MetricRow :=
  (List.range 10).map (fun i => ⟨(i : Int), "a", (50 : Rat) + i, none, 8, 16⟩)

/-- Witness for C8: the empty store takes the insufficient-data branch and
store10 takes the results branch, both through the theorem. -/
theorem c8_predictions_insufficient_data_witness :
    (handlePredictionsGet defaultThresholds true [] srvA).2 = .insufficient srvA ∧
    (∃ preds, (handlePredictionsGet defaultThresholds true store10 srvA).2 =
      .results srvA preds (min 100 (rowsForHost store10 srvA).length)) := by
  constructor
  · exact ((c8_predictions_insufficient_data defaultThresholds [] srvA).2.1
      (of_decide_eq_true (by with_unfolding_all rfl))).1
  · exact (c8_predictions_insufficient_data defaultThresholds store10 srvA).2.2
      (of_decide_eq_true (by with_unfolding_all rfl))

end EcoStats
